import Mathlib

/-
Verification of the libbsmp client engine (src/src/client.c) against its
natural-language specification.

The embedding below is a shallow translation of client.c:
- C structs become Lean structures; machine integers become Nat with explicit
  `% 256` (uint8 stores) and `% 65536` (uint16 stores) where width matters.
- The injected transport (the send/recv function pair) is modelled by
  `ExchBehavior`: one behavior per send-then-receive round trip. The contents
  of the receive array are modelled as a total function `Nat → Nat`; indices at
  or beyond the declared received length stand for whatever bytes happen to sit
  in memory there (the C code can and does read them).
- Pointer-valued entity handles (struct sllp_var_info *, etc.) become indices
  into the session's catalog lists: `vars_list_contains` (pointer-identity scan
  over the catalog array, client.c lines 38-50) holds exactly when the index is
  below the catalog count. NULL-pointer arguments are not representable in the
  embedding, so the `!client`-style null checks of client.c have no
  counterpart here; every other check is translated.
- Fallible operations return an `SllpErr` mirroring `enum sllp_err`, together
  with the bytes they deposit in caller-supplied buffers and the number of
  transport calls (send + recv invocations) they performed.

The headers sllp.h / sllp_priv.h are not part of src/, so the protocol
constants they define are modelled from the spec; each such definition carries
a doc comment starting with "Modelled from the spec:".
-/

namespace Sllp

/-- Modelled from the spec: the fixed wire header size in bytes, 1 command-code
byte plus 2 big-endian payload-length bytes. The constant SLLP_HEADER_SIZE
lives in the missing header sllp_priv.h; the spec fixes the layout to 3 bytes
("1 byte code, 2 bytes payload length (big-endian), then payload bytes"). -/
def SLLP_HEADER_SIZE : Nat := 3

/-- Modelled from the spec: the maximum payload size, SLLP_MAX_PAYLOAD in the
missing header. The spec states only that it is a fixed constant and that the
payload length travels as a 16-bit field; any value below 2 to the 16 minus
the header size yields the same theorems below. -/
def SLLP_MAX_PAYLOAD : Nat := 65532

/-- Maximum total message size: header plus maximum payload. -/
def SLLP_MAX_MESSAGE : Nat := SLLP_HEADER_SIZE + SLLP_MAX_PAYLOAD

/-- Modelled from the spec: the writable flag is the high bit of a packed
info byte ("high bit = writable"). -/
def WRITABLE_MASK : Nat := 128

/-- Modelled from the spec: the size field is the low 7 bits of a packed info
byte ("low bits = size field"). -/
def SIZE_MASK : Nat := 127

/-- Modelled from the spec: the sentinel expansion of a wire-encoded Variable
size field of 0 ("a wire-encoded size field of 0 is a sentinel meaning
maximum size"). With a 7-bit size field the maximum size is 128; no claim
below depends on the numeric value. -/
def SLLP_VAR_MAX_SIZE : Nat := 128

/-- Modelled from the spec: the fixed block-info prefix of curve block
messages, curve id byte plus 2-byte block offset. -/
def SLLP_CURVE_BLOCK_INFO : Nat := 3

/-- Modelled from the spec: number of defined bitwise operations
(AND, OR, XOR, SET, CLEAR, TOGGLE). -/
def BIN_OP_COUNT : Nat := 6

/-- Modelled from the spec: the command codes (CMD_* in the missing header
sllp_priv.h). The spec fixes the set of codes and requires them to be
distinct; their numeric values are not in src/ and no claim depends on the
particular values, only on distinctness. -/
def CMD_QUERY_VERSION : Nat := 0

/-- Modelled from the spec: version response code. -/
def CMD_VERSION : Nat := 1

/-- Modelled from the spec: variable list query code. -/
def CMD_VAR_QUERY_LIST : Nat := 2

/-- Modelled from the spec: variable list response code. -/
def CMD_VAR_LIST : Nat := 3

/-- Modelled from the spec: group list query code. -/
def CMD_GROUP_QUERY_LIST : Nat := 4

/-- Modelled from the spec: group list response code. -/
def CMD_GROUP_LIST : Nat := 5

/-- Modelled from the spec: group detail query code. -/
def CMD_GROUP_QUERY : Nat := 6

/-- Modelled from the spec: group detail response code. -/
def CMD_GROUP : Nat := 7

/-- Modelled from the spec: curve list query code. -/
def CMD_CURVE_QUERY_LIST : Nat := 8

/-- Modelled from the spec: curve list response code. -/
def CMD_CURVE_LIST : Nat := 9

/-- Modelled from the spec: curve checksum query code. -/
def CMD_CURVE_QUERY_CSUM : Nat := 10

/-- Modelled from the spec: curve checksum response code. -/
def CMD_CURVE_CSUM : Nat := 11

/-- Modelled from the spec: function list query code. -/
def CMD_FUNC_QUERY_LIST : Nat := 12

/-- Modelled from the spec: function list response code. -/
def CMD_FUNC_LIST : Nat := 13

/-- Modelled from the spec: variable read request code. -/
def CMD_VAR_READ : Nat := 14

/-- Modelled from the spec: variable value response code. -/
def CMD_VAR_VALUE : Nat := 15

/-- Modelled from the spec: variable write request code. -/
def CMD_VAR_WRITE : Nat := 16

/-- Modelled from the spec: combined write-then-read request code. -/
def CMD_VAR_WRITE_READ : Nat := 17

/-- Modelled from the spec: variable bitwise-operation request code. -/
def CMD_VAR_BIN_OP : Nat := 18

/-- Modelled from the spec: group read request code. -/
def CMD_GROUP_READ : Nat := 19

/-- Modelled from the spec: group values response code. -/
def CMD_GROUP_VALUES : Nat := 20

/-- Modelled from the spec: group write request code. -/
def CMD_GROUP_WRITE : Nat := 21

/-- Modelled from the spec: group bitwise-operation request code. -/
def CMD_GROUP_BIN_OP : Nat := 22

/-- Modelled from the spec: group creation request code. -/
def CMD_GROUP_CREATE : Nat := 23

/-- Modelled from the spec: group remove-all request code. -/
def CMD_GROUP_REMOVE_ALL : Nat := 24

/-- Modelled from the spec: curve block request code. -/
def CMD_CURVE_BLOCK_REQUEST : Nat := 25

/-- Modelled from the spec: curve block data code. -/
def CMD_CURVE_BLOCK : Nat := 26

/-- Modelled from the spec: curve checksum recompute request code. -/
def CMD_CURVE_RECALC_CSUM : Nat := 27

/-- Modelled from the spec: function execution request code. -/
def CMD_FUNC_EXECUTE : Nat := 28

/-- Modelled from the spec: function return (success) response code. -/
def CMD_FUNC_RETURN : Nat := 29

/-- Modelled from the spec: function error response code. -/
def CMD_FUNC_ERROR : Nat := 30

/-- Modelled from the spec: generic acknowledgement response code. -/
def CMD_OK : Nat := 31

/-- Modelled from the spec: the operation-not-supported error code used by the
version-fallback rule. -/
def CMD_ERR_OP_NOT_SUPPORTED : Nat := 32

/-- Mirror of `enum sllp_err` (the error kinds used by client.c). -/
inductive SllpErr where
  | success
  | param_invalid
  | comm
  | out_of_range
deriving DecidableEq, Repr

/-- Mirror of `struct sllp_version` (major/minor/revision; the formatted
string produced by snprintf at client.c lines 124-126 is presentation only and
is not modelled). -/
structure SllpVersion where
  major : Nat
  minor : Nat
  revision : Nat
deriving DecidableEq, Repr

/-- Mirror of `struct sllp_var_info`. -/
structure SllpVarInfo where
  id : Nat
  writable : Bool
  size : Nat
deriving DecidableEq, Repr

/-- Mirror of `struct sllp_group`: the `vars` field holds the member
references written by the refresh loop (client.c lines 220-225), `vars_count`
the count taken from the group-list byte (line 201). -/
structure SllpGroup where
  id : Nat
  size : Nat
  writable : Bool
  vars_count : Nat
  vars : List SllpVarInfo
deriving DecidableEq, Repr

/-- Mirror of `struct sllp_curve_info`. -/
structure SllpCurveInfo where
  id : Nat
  writable : Bool
  block_size : Nat
  nblocks : Nat
  checksum : List Nat
deriving DecidableEq, Repr

/-- Mirror of `struct sllp_func_info`. -/
structure SllpFuncInfo where
  id : Nat
  input_size : Nat
  output_size : Nat
deriving DecidableEq, Repr

/-- Mirror of `struct sllp_client` (client.c lines 10-19). The four catalogs
are lists whose length is the catalog `count`; the send/recv function pointers
are supplied per call as `ExchBehavior` values instead of being stored. -/
structure SllpClient where
  initialized : Bool
  server_version : SllpVersion
  vars : List SllpVarInfo
  groups : List SllpGroup
  curves : List SllpCurveInfo
  funcs : List SllpFuncInfo
deriving DecidableEq, Repr

/-- The observable behavior of the injected transport during one
send-then-receive round trip: whether the send call fails, whether the recv
call fails, the received size the recv call reports, and the full contents of
the receive array after the call. Indices at or beyond `recv_size` model
whatever bytes sit in memory past the received data. -/
structure ExchBehavior where
  send_fails : Bool
  recv_fails : Bool
  recv_size : Nat
  recv_data : Nat → Nat

/-- A request message as built by the callers of `command`: a command code and
the initialized payload bytes (`struct sllp_message` with
payload_size = payload.length). -/
structure SllpRequest where
  code : Nat
  payload : List Nat

/-- The uint16 payload_size field of a request message. -/
def SllpRequest.payload_size (request : SllpRequest) : Nat :=
  request.payload.length % 65536

/-- A decoded response message (`struct sllp_message` as filled by `command`,
client.c lines 87-91). `payload` is the contents of the payload array as a
total function; the byte at index k is the receive-array byte at index
header+k, which for k at or beyond the received-payload extent models
uninitialized memory (the line-91 memcpy copies the received length worth of
bytes, see `decoded_payload_bytes`). -/
structure SllpResponse where
  code : Nat
  payload_size : Nat
  payload : Nat → Nat

/-- Encoding of a request into the send buffer (client.c lines 64-74):
code byte, two big-endian payload-length bytes, then payload_size payload
bytes, each stored through a uint8 array. -/
def encode_message (request : SllpRequest) : List Nat :=
  (request.code % 256) ::
    (request.payload_size / 256) ::
    (request.payload_size % 256) ::
    ((request.payload.take request.payload_size).map fun x => x % 256)

/-- The bytes the line-91 memcpy deposits into response->payload: it copies
recv_buf.size bytes starting at recv_buf.data[SLLP_HEADER_SIZE], hence reads
the receive array at indices SLLP_HEADER_SIZE .. SLLP_HEADER_SIZE +
recv_size - 1. -/
def decoded_payload_bytes (recv_size : Nat) (recv_data : Nat → Nat) : List Nat :=
  (List.range recv_size).map fun k => recv_data (SLLP_HEADER_SIZE + k) % 256

/-- Result of one call to `command`: the encoded bytes handed to the
transport's send, the decoded response (`none` = SLLP_ERR_COMM), and the
number of transport invocations (send calls plus recv calls) performed. -/
structure CommandResult where
  sent : List Nat
  resp : Option SllpResponse
  calls : Nat

/-- Mirror of `command` (client.c lines 52-94): encode the request, send it,
receive, reject a received size below 2, then decode code, big-endian payload
size, and payload bytes. Note the source guard is `recv_buf.size < 2`, not
`< SLLP_HEADER_SIZE`. -/
def command (b : ExchBehavior) (request : SllpRequest) : CommandResult :=
  let send_buf := encode_message request
  if b.send_fails then
    { sent := send_buf, resp := none, calls := 1 }
  else if b.recv_fails then
    { sent := send_buf, resp := none, calls := 2 }
  else if b.recv_size < 2 then
    { sent := send_buf, resp := none, calls := 2 }
  else
    { sent := send_buf,
      resp := some
        { code := b.recv_data 0 % 256,
          payload_size := (b.recv_data 1 % 256) * 256 + (b.recv_data 2 % 256),
          payload := fun k => b.recv_data (SLLP_HEADER_SIZE + k) % 256 },
      calls := 2 }

/-- The all-zero `struct sllp_var_info` left by memset in catalog slots beyond
the filled count. -/
def zero_var_info : SllpVarInfo := { id := 0, writable := false, size := 0 }

/-- Reading the Variable-catalog array at an index: slots beyond the filled
count hold the memset-zeroed record. -/
def var_at (vars : List SllpVarInfo) (i : Nat) : SllpVarInfo :=
  vars.getD i zero_var_info

/-- The all-zero `struct sllp_group`. -/
def zero_group : SllpGroup :=
  { id := 0, size := 0, writable := false, vars_count := 0, vars := [] }

/-- Reading the Group-catalog array at an index. -/
def group_at (groups : List SllpGroup) (i : Nat) : SllpGroup :=
  groups.getD i zero_group

/-- The all-zero `struct sllp_curve_info`. -/
def zero_curve : SllpCurveInfo :=
  { id := 0, writable := false, block_size := 0, nblocks := 0, checksum := [] }

/-- Reading the Curve-catalog array at an index. -/
def curve_at (curves : List SllpCurveInfo) (i : Nat) : SllpCurveInfo :=
  curves.getD i zero_curve

/-- The all-zero `struct sllp_func_info`. -/
def zero_func : SllpFuncInfo := { id := 0, input_size := 0, output_size := 0 }

/-- Reading the Function-catalog array at an index. -/
def func_at (funcs : List SllpFuncInfo) (i : Nat) : SllpFuncInfo :=
  funcs.getD i zero_func

/-- Mirror of `vars_list_contains` (client.c lines 38-47): a handle passed by
the caller is a live catalog member exactly when it points at one of the
first `count` array slots, i.e. when its index is below the catalog count. -/
def vars_list_contains (vars : List SllpVarInfo) (i : Nat) : Bool :=
  decide (i < vars.length)

/-- Mirror of `groups_list_contains`. -/
def groups_list_contains (groups : List SllpGroup) (i : Nat) : Bool :=
  decide (i < groups.length)

/-- Mirror of `curves_list_contains`. -/
def curves_list_contains (curves : List SllpCurveInfo) (i : Nat) : Bool :=
  decide (i < curves.length)

/-- Mirror of `funcs_list_contains`. -/
def funcs_list_contains (funcs : List SllpFuncInfo) (i : Nat) : Bool :=
  decide (i < funcs.length)

/-- Mirror of `get_version` (client.c lines 96-129): query the version; a
communication failure propagates; an operation-not-supported response code
selects the v1.0.0 fallback; any other response code takes the first three
payload bytes as major/minor/revision. The snprintf into the version string
is presentation only and not modelled. -/
def get_version (client : SllpClient) (b : ExchBehavior) : SllpClient × SllpErr :=
  let request : SllpRequest := { code := CMD_QUERY_VERSION, payload := [] }
  match (command b request).resp with
  | none => (client, SllpErr.comm)
  | some response =>
      let v : SllpVersion :=
        if response.code = CMD_ERR_OP_NOT_SUPPORTED then
          { major := 1, minor := 0, revision := 0 }
        else
          { major := response.payload 0, minor := response.payload 1,
            revision := response.payload 2 }
      ({ client with server_version := v }, SllpErr.success)

/-- The inner member loop of `update_groups_list` (client.c lines 218-225) for
the first `n` bytes of a group-detail response payload: resolve each payload
byte against the Variable-catalog array and accumulate the reference list and
the group size, in payload order. -/
def group_member_fill (vars : List SllpVarInfo) (payload : Nat → Nat) :
    Nat → List SllpVarInfo × Nat
  | 0 => ([], 0)
  | n + 1 =>
      let prev := group_member_fill vars payload n
      let var := var_at vars (payload n)
      (prev.1 ++ [var], prev.2 + var.size)

/-- The per-group loop of `update_groups_list` (client.c lines 193-226),
building the groups with ids i, i+1, ... from the group-list payload bytes;
`fuel` is the number of groups still to fill. Each group issues one
group-detail exchange (behavior index i+1, the list query having used index
0); `none` is the error path that zeroes the catalog. -/
def groups_fill (vars : List SllpVarInfo) (ts : Nat → ExchBehavior)
    (payload : Nat → Nat) (i : Nat) : Nat → Option (List SllpGroup)
  | 0 => some []
  | fuel + 1 =>
      let byte := payload i
      let grp_request : SllpRequest :=
        { code := CMD_GROUP_QUERY, payload := [i % 256] }
      match (command (ts (i + 1)) grp_request).resp with
      | none => none
      | some grp_response =>
          if grp_response.code ≠ CMD_GROUP then none
          else
            let mem := group_member_fill vars grp_response.payload
              grp_response.payload_size
            let grp : SllpGroup :=
              { id := i, size := mem.2,
                writable := byte &&& WRITABLE_MASK != 0,
                vars_count := byte &&& SIZE_MASK,
                vars := mem.1 }
            match groups_fill vars ts payload (i + 1) fuel with
            | none => none
            | some rest => some (grp :: rest)

/-- Mirror of `update_groups_list` (client.c lines 166-233): the group-list
query failing or answering with an unexpected code returns SLLP_ERR_COMM
before the catalog is touched; after the catalog is zeroed, any per-group
exchange failure takes the `err` exit that leaves the count at zero;
otherwise the refreshed catalog has one group per payload byte. The
transport's successive round trips are `ts 0`, `ts 1`, .... -/
def update_groups_list (client : SllpClient) (ts : Nat → ExchBehavior) :
    SllpClient × SllpErr :=
  let request : SllpRequest := { code := CMD_GROUP_QUERY_LIST, payload := [] }
  match (command (ts 0) request).resp with
  | none => (client, SllpErr.comm)
  | some response =>
      if response.code ≠ CMD_GROUP_LIST then (client, SllpErr.comm)
      else
        match groups_fill client.vars ts response.payload 0
            response.payload_size with
        | none => ({ client with groups := [] }, SllpErr.comm)
        | some gs => ({ client with groups := gs }, SllpErr.success)

/-- Result of one public entity operation: the session state after the call,
the returned error code, the number of transport invocations (send calls plus
recv calls) performed, and the operation's caller-visible output. -/
structure OpResult (α : Type) where
  client : SllpClient
  err : SllpErr
  calls : Nat
  out : α
deriving DecidableEq, Repr

/-- Mirror of `sllp_read_var` (client.c lines 407-435): membership check, one
exchange, response code must be the variable-value code; the output is the
byte list the final memcpy writes into the caller's value buffer — it copies
`response.payload_size` bytes (the length declared by the response). -/
def sllp_read_var (client : SllpClient) (var_idx : Nat) (b : ExchBehavior) :
    OpResult (List Nat) :=
  if ! vars_list_contains client.vars var_idx then
    { client := client, err := SllpErr.param_invalid, calls := 0, out := [] }
  else
    let var := var_at client.vars var_idx
    let request : SllpRequest :=
      { code := CMD_VAR_READ, payload := [var.id % 256] }
    let c := command b request
    match c.resp with
    | none => { client := client, err := SllpErr.comm, calls := c.calls, out := [] }
    | some response =>
        if response.code ≠ CMD_VAR_VALUE then
          { client := client, err := SllpErr.comm, calls := c.calls, out := [] }
        else
          { client := client, err := SllpErr.success, calls := c.calls,
            out := (List.range response.payload_size).map response.payload }

/-- Mirror of `sllp_write_var` (client.c lines 437-465): membership check,
writable check, then one exchange whose response must be the ack code. The
`value` function is the caller's value buffer, of which var->size bytes are
sent. -/
def sllp_write_var (client : SllpClient) (var_idx : Nat) (value : Nat → Nat)
    (b : ExchBehavior) : OpResult Unit :=
  if ! vars_list_contains client.vars var_idx then
    { client := client, err := SllpErr.param_invalid, calls := 0, out := () }
  else
    let var := var_at client.vars var_idx
    if ! var.writable then
      { client := client, err := SllpErr.param_invalid, calls := 0, out := () }
    else
      let request : SllpRequest :=
        { code := CMD_VAR_WRITE,
          payload := var.id % 256 ::
            (List.range var.size).map fun k => value k % 256 }
      let c := command b request
      match c.resp with
      | none => { client := client, err := SllpErr.comm, calls := c.calls, out := () }
      | some response =>
          if response.code ≠ CMD_OK then
            { client := client, err := SllpErr.comm, calls := c.calls, out := () }
          else
            { client := client, err := SllpErr.success, calls := c.calls, out := () }

/-- Mirror of `sllp_write_read_vars` (client.c lines 467-500): both
memberships and the write variable's writable flag are checked, one exchange
is made, and on a variable-value response the final memcpy copies
`read_var->size` bytes (the read Variable's catalog size) into the caller's
read buffer — that byte list is the output. -/
def sllp_write_read_vars (client : SllpClient) (w_idx : Nat)
    (write_value : Nat → Nat) (r_idx : Nat) (b : ExchBehavior) :
    OpResult (List Nat) :=
  if ! vars_list_contains client.vars w_idx then
    { client := client, err := SllpErr.param_invalid, calls := 0, out := [] }
  else
    let write_var := var_at client.vars w_idx
    if ! write_var.writable then
      { client := client, err := SllpErr.param_invalid, calls := 0, out := [] }
    else if ! vars_list_contains client.vars r_idx then
      { client := client, err := SllpErr.param_invalid, calls := 0, out := [] }
    else
      let read_var := var_at client.vars r_idx
      let request : SllpRequest :=
        { code := CMD_VAR_WRITE_READ,
          payload := write_var.id % 256 :: read_var.id % 256 ::
            (List.range write_var.size).map fun k => write_value k % 256 }
      let c := command b request
      match c.resp with
      | none => { client := client, err := SllpErr.comm, calls := c.calls, out := [] }
      | some response =>
          if response.code ≠ CMD_VAR_VALUE then
            { client := client, err := SllpErr.comm, calls := c.calls, out := [] }
          else
            { client := client, err := SllpErr.success, calls := c.calls,
              out := (List.range read_var.size).map response.payload }

/-- Mirror of `sllp_read_group` (client.c lines 502-528): the output is the
response.payload_size bytes copied into the caller's values buffer. -/
def sllp_read_group (client : SllpClient) (grp_idx : Nat) (b : ExchBehavior) :
    OpResult (List Nat) :=
  if ! groups_list_contains client.groups grp_idx then
    { client := client, err := SllpErr.param_invalid, calls := 0, out := [] }
  else
    let grp := group_at client.groups grp_idx
    let request : SllpRequest :=
      { code := CMD_GROUP_READ, payload := [grp.id % 256] }
    let c := command b request
    match c.resp with
    | none => { client := client, err := SllpErr.comm, calls := c.calls, out := [] }
    | some response =>
        if response.code ≠ CMD_GROUP_VALUES then
          { client := client, err := SllpErr.comm, calls := c.calls, out := [] }
        else
          { client := client, err := SllpErr.success, calls := c.calls,
            out := (List.range response.payload_size).map response.payload }

/-- Mirror of `sllp_write_group` (client.c lines 530-558): membership and
writable checks, then one exchange carrying grp->size value bytes. -/
def sllp_write_group (client : SllpClient) (grp_idx : Nat) (values : Nat → Nat)
    (b : ExchBehavior) : OpResult Unit :=
  if ! groups_list_contains client.groups grp_idx then
    { client := client, err := SllpErr.param_invalid, calls := 0, out := () }
  else
    let grp := group_at client.groups grp_idx
    if ! grp.writable then
      { client := client, err := SllpErr.param_invalid, calls := 0, out := () }
    else
      let request : SllpRequest :=
        { code := CMD_GROUP_WRITE,
          payload := grp.id % 256 ::
            (List.range grp.size).map fun k => values k % 256 }
      let c := command b request
      match c.resp with
      | none => { client := client, err := SllpErr.comm, calls := c.calls, out := () }
      | some response =>
          if response.code ≠ CMD_OK then
            { client := client, err := SllpErr.comm, calls := c.calls, out := () }
          else
            { client := client, err := SllpErr.success, calls := c.calls, out := () }

/-- Mirror of the `bin_op_code` table (client.c lines 21-29): the single-byte
ASCII tags for the six bitwise operations, in enum order AND, OR, XOR, SET,
CLEAR, TOGGLE; the ASCII codes are 65, 79, 88, 83, 67, 84. -/
def bin_op_code (op : Nat) : Nat :=
  if op = 0 then 65
  else if op = 1 then 79
  else if op = 2 then 88
  else if op = 3 then 83
  else if op = 4 then 67
  else if op = 5 then 84
  else 0

/-- Mirror of `sllp_bin_op_var` (client.c lines 560-591): membership,
writable, then the operation-tag range check, then one exchange carrying the
tag byte and var->size mask bytes. -/
def sllp_bin_op_var (client : SllpClient) (op : Nat) (var_idx : Nat)
    (mask : Nat → Nat) (b : ExchBehavior) : OpResult Unit :=
  if ! vars_list_contains client.vars var_idx then
    { client := client, err := SllpErr.param_invalid, calls := 0, out := () }
  else
    let var := var_at client.vars var_idx
    if ! var.writable then
      { client := client, err := SllpErr.param_invalid, calls := 0, out := () }
    else if BIN_OP_COUNT ≤ op then
      { client := client, err := SllpErr.out_of_range, calls := 0, out := () }
    else
      let request : SllpRequest :=
        { code := CMD_VAR_BIN_OP,
          payload := var.id % 256 :: bin_op_code op ::
            (List.range var.size).map fun k => mask k % 256 }
      let c := command b request
      match c.resp with
      | none => { client := client, err := SllpErr.comm, calls := c.calls, out := () }
      | some response =>
          if response.code ≠ CMD_OK then
            { client := client, err := SllpErr.comm, calls := c.calls, out := () }
          else
            { client := client, err := SllpErr.success, calls := c.calls, out := () }

/-- Mirror of `sllp_bin_op_group` (client.c lines 593-624). -/
def sllp_bin_op_group (client : SllpClient) (op : Nat) (grp_idx : Nat)
    (mask : Nat → Nat) (b : ExchBehavior) : OpResult Unit :=
  if ! groups_list_contains client.groups grp_idx then
    { client := client, err := SllpErr.param_invalid, calls := 0, out := () }
  else
    let grp := group_at client.groups grp_idx
    if ! grp.writable then
      { client := client, err := SllpErr.param_invalid, calls := 0, out := () }
    else if BIN_OP_COUNT ≤ op then
      { client := client, err := SllpErr.out_of_range, calls := 0, out := () }
    else
      let request : SllpRequest :=
        { code := CMD_GROUP_BIN_OP,
          payload := grp.id % 256 :: bin_op_code op ::
            (List.range grp.size).map fun k => mask k % 256 }
      let c := command b request
      match c.resp with
      | none => { client := client, err := SllpErr.comm, calls := c.calls, out := () }
      | some response =>
          if response.code ≠ CMD_OK then
            { client := client, err := SllpErr.comm, calls := c.calls, out := () }
          else
            { client := client, err := SllpErr.success, calls := c.calls, out := () }

/-- Mirror of `sllp_request_curve_block` (client.c lines 678-705): membership
and offset range checks, one exchange; on a curve-block response the returned
length is the uint16 difference payload_size - SLLP_CURVE_BLOCK_INFO and that
many data bytes past the block-info prefix are copied out. The output is the
(length, data bytes) pair. -/
def sllp_request_curve_block (client : SllpClient) (curve_idx : Nat)
    (offset : Nat) (b : ExchBehavior) : OpResult (Nat × List Nat) :=
  if ! curves_list_contains client.curves curve_idx then
    { client := client, err := SllpErr.param_invalid, calls := 0, out := (0, []) }
  else
    let curve := curve_at client.curves curve_idx
    if curve.nblocks < offset then
      { client := client, err := SllpErr.out_of_range, calls := 0, out := (0, []) }
    else
      let request : SllpRequest :=
        { code := CMD_CURVE_BLOCK_REQUEST,
          payload := [curve.id % 256, offset / 256 % 256, offset % 256] }
      let c := command b request
      match c.resp with
      | none =>
          { client := client, err := SllpErr.comm, calls := c.calls, out := (0, []) }
      | some response =>
          if response.code ≠ CMD_CURVE_BLOCK then
            { client := client, err := SllpErr.comm, calls := c.calls, out := (0, []) }
          else
            let len :=
              (response.payload_size + 65536 - SLLP_CURVE_BLOCK_INFO) % 65536
            { client := client, err := SllpErr.success, calls := c.calls,
              out := (len, (List.range len).map
                fun k => response.payload (SLLP_CURVE_BLOCK_INFO + k)) }

/-- Mirror of `sllp_send_curve_block` (client.c lines 707-739): membership,
writable, offset and length range checks, then one exchange carrying the
block-info prefix and len data bytes, expecting the ack code. -/
def sllp_send_curve_block (client : SllpClient) (curve_idx : Nat)
    (offset : Nat) (data : Nat → Nat) (len : Nat) (b : ExchBehavior) :
    OpResult Unit :=
  if ! curves_list_contains client.curves curve_idx then
    { client := client, err := SllpErr.param_invalid, calls := 0, out := () }
  else
    let curve := curve_at client.curves curve_idx
    if ! curve.writable then
      { client := client, err := SllpErr.param_invalid, calls := 0, out := () }
    else if curve.nblocks < offset then
      { client := client, err := SllpErr.out_of_range, calls := 0, out := () }
    else if curve.block_size < len then
      { client := client, err := SllpErr.out_of_range, calls := 0, out := () }
    else
      let request : SllpRequest :=
        { code := CMD_CURVE_BLOCK,
          payload := curve.id % 256 :: offset / 256 % 256 :: offset % 256 ::
            (List.range len).map fun k => data k % 256 }
      let c := command b request
      match c.resp with
      | none => { client := client, err := SllpErr.comm, calls := c.calls, out := () }
      | some response =>
          if response.code ≠ CMD_OK then
            { client := client, err := SllpErr.comm, calls := c.calls, out := () }
          else
            { client := client, err := SllpErr.success, calls := c.calls, out := () }

/-- Mirror of `sllp_func_execute` (client.c lines 767-809). `input` is the
caller's input buffer (none = NULL pointer), `output0` the prior contents of
the caller's output buffer (none = NULL pointer), `error0` the prior value of
the caller's error byte. The output is the pair (error-byte value, output
buffer contents) after the call: a function-return response zeroes the error
byte and overwrites the first output_size output bytes from the response; a
function-error response stores the first response payload byte in the error
byte and leaves the output buffer alone; any other response code is a
communication error that touches neither. -/
def sllp_func_execute (client : SllpClient) (func_idx : Nat) (error0 : Nat)
    (input : Option (Nat → Nat)) (output0 : Option (List Nat))
    (b : ExchBehavior) : OpResult (Nat × Option (List Nat)) :=
  if ! funcs_list_contains client.funcs func_idx then
    { client := client, err := SllpErr.param_invalid, calls := 0,
      out := (error0, output0) }
  else
    let func := func_at client.funcs func_idx
    if func.input_size != 0 && input.isNone then
      { client := client, err := SllpErr.param_invalid, calls := 0,
        out := (error0, output0) }
    else if func.output_size != 0 && output0.isNone then
      { client := client, err := SllpErr.param_invalid, calls := 0,
        out := (error0, output0) }
    else
      let input_bytes : List Nat :=
        match input with
        | none => []
        | some f => (List.range func.input_size).map fun k => f k % 256
      let request : SllpRequest :=
        { code := CMD_FUNC_EXECUTE, payload := func.id % 256 :: input_bytes }
      let c := command b request
      match c.resp with
      | none =>
          { client := client, err := SllpErr.comm, calls := c.calls,
            out := (error0, output0) }
      | some response =>
          if response.code = CMD_FUNC_RETURN then
            { client := client, err := SllpErr.success, calls := c.calls,
              out := (0, output0.map fun buf =>
                (List.range func.output_size).map response.payload ++
                  buf.drop func.output_size) }
          else if response.code = CMD_FUNC_ERROR then
            { client := client, err := SllpErr.success, calls := c.calls,
              out := (response.payload 0, output0) }
          else
            { client := client, err := SllpErr.comm, calls := c.calls,
              out := (error0, output0) }

/-- A concrete session used by the witnesses and counterexamples below: two
Variables (id 0 writable of size 4, id 1 read-only of size 1), one Group over
both, no Curves, one Function with input size 1 and output size 2. -/
def clientA : SllpClient :=
  { initialized := true,
    server_version := { major := 1, minor := 0, revision := 0 },
    vars := [{ id := 0, writable := true, size := 4 },
             { id := 1, writable := false, size := 1 }],
    groups := [{ id := 0, size := 5, writable := false, vars_count := 2,
                 vars := [{ id := 0, writable := true, size := 4 },
                          { id := 1, writable := false, size := 1 }] }],
    curves := [],
    funcs := [{ id := 0, input_size := 1, output_size := 2 }] }

/-- A transport behavior whose send call fails. -/
def b_send_fail : ExchBehavior :=
  { send_fails := true, recv_fails := false, recv_size := 0,
    recv_data := fun _ => 0 }

/-- A transport behavior answering with a variable-value response that
declares payload length 2 and carries the bytes 9, 8. -/
def b_var_value_len2 : ExchBehavior :=
  { send_fails := false, recv_fails := false, recv_size := 5,
    recv_data := fun i => [CMD_VAR_VALUE, 0, 2, 9, 8].getD i 0 }

/-- A transport behavior answering with a variable-value response that
declares payload length 3 and carries the bytes 42, 43, 44. -/
def b_var_value_len3 : ExchBehavior :=
  { send_fails := false, recv_fails := false, recv_size := 6,
    recv_data := fun i => [CMD_VAR_VALUE, 0, 3, 42, 43, 44].getD i 0 }

/-- A transport behavior that reports a received size of 2: one code byte and
only the first of the two payload-length bytes. -/
def b_two_byte : ExchBehavior :=
  { send_fails := false, recv_fails := false, recv_size := 2,
    recv_data := fun i => if i = 0 then CMD_OK else 0 }

/-- A transport behavior answering with a function-error response whose error
payload byte is 0. -/
def b_func_error_zero : ExchBehavior :=
  { send_fails := false, recv_fails := false, recv_size := 4,
    recv_data := fun i => [CMD_FUNC_ERROR, 0, 1, 0].getD i 0 }

/-- A transport behavior answering with a function-error response whose error
payload byte is 7. -/
def b_func_error_seven : ExchBehavior :=
  { send_fails := false, recv_fails := false, recv_size := 4,
    recv_data := fun i => [CMD_FUNC_ERROR, 0, 1, 7].getD i 0 }

/-- A transport behavior answering the version query with the
operation-not-supported code. -/
def b_op_not_supported : ExchBehavior :=
  { send_fails := false, recv_fails := false, recv_size := 3,
    recv_data := fun i => [CMD_ERR_OP_NOT_SUPPORTED, 0, 0].getD i 0 }

/-- A transport behavior sequence for a successful Groups refresh: the
group-list response reports one group with packed byte 130 (writable, two
members); the group-detail response lists the member variable ids 0 and 1. -/
def tsA : Nat -> ExchBehavior := fun n =>
  if n = 0 then
    { send_fails := false, recv_fails := false, recv_size := 4,
      recv_data := fun i => [CMD_GROUP_LIST, 0, 1, 130].getD i 0 }
  else
    { send_fails := false, recv_fails := false, recv_size := 5,
      recv_data := fun i => [CMD_GROUP, 0, 2, 0, 1].getD i 0 }

/-- The failure condition of the group-detail exchange that
`update_groups_list` performs for group index j (client.c lines 204-215): the
exchange (behavior index j+1, the group-list query having used index 0) either
yields no response or answers with a code other than the group-detail code. -/
def group_query_bad (ts : Nat → ExchBehavior) (j : Nat) : Prop :=
  match (command (ts (j + 1)) { code := CMD_GROUP_QUERY, payload := [j % 256] }).resp with
  | none => True
  | some grp_response => grp_response.code ≠ CMD_GROUP

/-- A transport behavior sequence whose group-list response reports one group
(packed byte 130) but whose group-detail exchange fails at the send. -/
def tsB : Nat -> ExchBehavior := fun n =>
  if n = 0 then
    { send_fails := false, recv_fails := false, recv_size := 4,
      recv_data := fun i => [CMD_GROUP_LIST, 0, 1, 130].getD i 0 }
  else
    { send_fails := true, recv_fails := false, recv_size := 0,
      recv_data := fun _ => 0 }

/-- Helper: a decoded response obtained from `command` has the code, declared
payload size and payload-array contents determined by the receive-array
bytes. -/
theorem command_resp_elim {b : ExchBehavior} {request : SllpRequest}
    {response : SllpResponse}
    (h : (command b request).resp = some response) :
    response.code = b.recv_data 0 % 256 ∧
    response.payload_size = (b.recv_data 1 % 256) * 256 + (b.recv_data 2 % 256) ∧
    response.payload = fun k => b.recv_data (SLLP_HEADER_SIZE + k) % 256 := by
  unfold command at h
  by_cases h1 : b.send_fails
  · simp [h1] at h
  · by_cases h2 : b.recv_fails
    · simp [h1, h2] at h
    · by_cases h3 : b.recv_size < 2
      · simp [h1, h2, h3] at h
      · simp [h1, h2, h3] at h
        subst h
        exact ⟨rfl, rfl, rfl⟩

/-- Helper: when the send and recv calls succeed and the received size passes
the guard, `command` decodes the response deterministically from the receive
array. -/
theorem command_resp_some (b : ExchBehavior) (request : SllpRequest)
    (h1 : b.send_fails = false) (h2 : b.recv_fails = false)
    (h3 : 2 ≤ b.recv_size) :
    (command b request).resp = some
      { code := b.recv_data 0 % 256,
        payload_size := (b.recv_data 1 % 256) * 256 + (b.recv_data 2 % 256),
        payload := fun k => b.recv_data (SLLP_HEADER_SIZE + k) % 256 } := by
  unfold command
  dsimp only
  rw [h1, h2]
  simp only [Bool.false_eq_true, if_false, ite_false,
    if_neg (Nat.not_lt.mpr h3)]

/-- C3 (code_bug exhibit): the spec requires every received buffer shorter
than the fixed 3-byte header to fail with CommunicationError, in particular a
2-byte buffer; the guard in `command` is `recv_buf.size < 2`, so a receive of
declared size 2 — shorter than the header — is accepted and a response is
produced (reading the second payload-length byte from past the received
data). -/
theorem C3_two_byte_receive_accepted :
    2 < SLLP_HEADER_SIZE ∧
    (command b_two_byte { code := CMD_VAR_READ, payload := [0] }).resp.isSome = true :=
  ⟨by decide, rfl⟩

/-- C2 counterexample: with a session whose Group catalog holds one group and
a transport whose first (group-list) exchange fails, the refresh returns
CommunicationError but leaves the Group-catalog count at 1, not 0 — the claim
that every failing refresh leaves the count at zero is false. -/
theorem C2_counterexample :
    (update_groups_list clientA (fun _ => b_send_fail)).2 = SllpErr.comm ∧
    (update_groups_list clientA (fun _ => b_send_fail)).1.groups.length = 1 := by
  exact ⟨rfl, rfl⟩

/-- Helper: the exchange yields no response exactly on the transport-failure
paths: the send fails, the receive fails, or the received size is below the
guard. -/
theorem command_resp_eq_none (b : ExchBehavior) (request : SllpRequest)
    (h : b.send_fails = true ∨ b.recv_fails = true ∨ b.recv_size < 2) :
    (command b request).resp = none := by
  unfold command
  dsimp only
  rcases h with h | h | h <;>
    by_cases hs : b.send_fails = true <;>
    by_cases hrf : b.recv_fails = true <;>
    simp [h, hs, hrf]

/-- Helper: when every remaining group-detail exchange completes with the
group-detail code, the per-group loop completes, producing one group per
remaining index. -/
theorem groups_fill_all_good (vars : List SllpVarInfo) (ts : Nat → ExchBehavior)
    (payload : Nat → Nat) :
    ∀ fuel i, (∀ j, j < fuel → ¬ group_query_bad ts (i + j)) →
      ∃ gs, groups_fill vars ts payload i fuel = some gs ∧ gs.length = fuel := by
  intro fuel
  induction fuel with
  | zero => exact fun i _ => ⟨[], rfl, rfl⟩
  | succ fuel ih =>
      intro i h
      have h0 : ¬ group_query_bad ts (i + 0) := h 0 (by omega)
      rw [Nat.add_zero] at h0
      unfold group_query_bad at h0
      rw [groups_fill]
      cases hresp : (command (ts (i + 1)) { code := CMD_GROUP_QUERY, payload := [i % 256] }).resp with
      | none => rw [hresp] at h0; exact absurd trivial h0
      | some grp_response =>
          rw [hresp] at h0
          have hcode : grp_response.code = CMD_GROUP := by
            by_contra hne
            exact h0 hne
          obtain ⟨rest, hrest, hlen⟩ := ih (i + 1) (fun j hj => by
            have hshift := h (j + 1) (by omega)
            rwa [show i + (j + 1) = i + 1 + j by omega] at hshift)
          simp only [hcode, ne_eq, not_true_eq_false, if_false, ite_false]
          rw [hrest]
          exact ⟨_, rfl, by simp [hlen]⟩

/-- Helper: when some remaining group-detail exchange fails or answers with
an unexpected code, the per-group loop aborts with the error result. -/
theorem groups_fill_some_bad (vars : List SllpVarInfo) (ts : Nat → ExchBehavior)
    (payload : Nat → Nat) :
    ∀ fuel i, (∃ j, j < fuel ∧ group_query_bad ts (i + j)) →
      groups_fill vars ts payload i fuel = none := by
  intro fuel
  induction fuel with
  | zero =>
      rintro i ⟨j, hj, -⟩
      exact absurd hj (by omega)
  | succ fuel ih =>
      rintro i ⟨j, hj, hbad⟩
      rw [groups_fill]
      cases hresp : (command (ts (i + 1)) { code := CMD_GROUP_QUERY, payload := [i % 256] }).resp with
      | none => rfl
      | some grp_response =>
          by_cases hcode : grp_response.code = CMD_GROUP
          · have hj0 : j ≠ 0 := by
              intro h0
              subst h0
              rw [Nat.add_zero] at hbad
              unfold group_query_bad at hbad
              rw [hresp] at hbad
              exact hbad hcode
            obtain ⟨j2, rfl⟩ : ∃ j2, j = j2 + 1 := ⟨j - 1, by omega⟩
            have hrest : groups_fill vars ts payload (i + 1) fuel = none :=
              ih (i + 1) ⟨j2, by omega,
                by rwa [show i + 1 + j2 = i + (j2 + 1) by omega]⟩
            simp only [hcode, ne_eq, not_true_eq_false, if_false, ite_false]
            rw [hrest]
          · simp [hcode]

/-- C2 (amended): every exchange failure during a Groups-catalog refresh
yields CommunicationError, with the catalog outcome depending on which
exchange failed: if the initial group-list exchange fails or answers with an
unexpected code, the whole session — including the previous, possibly stale,
Group catalog — is left unchanged; if the group-list exchange completes with
the group-list code, then a failure of any of the per-group detail exchanges
yields CommunicationError with the Group-catalog count equal to zero, and if
none of them fails the refresh succeeds with one group per group-list payload
byte. -/
theorem C2_groups_refresh_failure (client : SllpClient) (ts : Nat → ExchBehavior) :
    (((ts 0).send_fails = true ∨ (ts 0).recv_fails = true ∨ (ts 0).recv_size < 2 ∨
        (ts 0).recv_data 0 % 256 ≠ CMD_GROUP_LIST) →
      update_groups_list client ts = (client, SllpErr.comm)) ∧
    ((ts 0).send_fails = false → (ts 0).recv_fails = false → 2 ≤ (ts 0).recv_size →
      (ts 0).recv_data 0 % 256 = CMD_GROUP_LIST →
      ((∃ j, j < ((ts 0).recv_data 1 % 256) * 256 + (ts 0).recv_data 2 % 256 ∧
          group_query_bad ts j) →
        (update_groups_list client ts).2 = SllpErr.comm ∧
        (update_groups_list client ts).1.groups = []) ∧
      ((∀ j, j < ((ts 0).recv_data 1 % 256) * 256 + (ts 0).recv_data 2 % 256 →
          ¬ group_query_bad ts j) →
        (update_groups_list client ts).2 = SllpErr.success ∧
        (update_groups_list client ts).1.groups.length =
          ((ts 0).recv_data 1 % 256) * 256 + (ts 0).recv_data 2 % 256)) := by
  constructor
  · intro hbad
    unfold update_groups_list
    dsimp only
    cases hresp : (command (ts 0) { code := CMD_GROUP_QUERY_LIST, payload := [] }).resp with
    | none => rfl
    | some response =>
        rcases hbad with h | h | h | h
        · rw [command_resp_eq_none (ts 0) _ (Or.inl h)] at hresp
          exact Option.noConfusion hresp
        · rw [command_resp_eq_none (ts 0) _ (Or.inr (Or.inl h))] at hresp
          exact Option.noConfusion hresp
        · rw [command_resp_eq_none (ts 0) _ (Or.inr (Or.inr h))] at hresp
          exact Option.noConfusion hresp
        · obtain ⟨hc, -, -⟩ := command_resp_elim hresp
          dsimp only
          rw [if_pos (show response.code ≠ CMD_GROUP_LIST by rw [hc]; exact h)]
  · intro h1 h2 h3 h4
    constructor
    · rintro ⟨j, hj, hbad⟩
      unfold update_groups_list
      dsimp only
      rw [command_resp_some (ts 0) _ h1 h2 h3]
      dsimp only
      rw [if_neg (fun hne => hne h4)]
      rw [groups_fill_some_bad client.vars ts _ _ 0
        ⟨j, hj, by rwa [Nat.zero_add]⟩]
      exact ⟨rfl, rfl⟩
    · intro hgood
      unfold update_groups_list
      dsimp only
      rw [command_resp_some (ts 0) _ h1 h2 h3]
      dsimp only
      rw [if_neg (fun hne => hne h4)]
      obtain ⟨gs, hgs, hlen⟩ := groups_fill_all_good client.vars ts _ _ 0
        (fun j hj => by rw [Nat.zero_add]; exact hgood j hj)
      rw [hgs]
      exact ⟨rfl, hlen⟩

/-- C2 witness: through `tsB` the group-list exchange completes with one
group-list payload byte but the group-detail exchange fails, and the refresh
returns CommunicationError with the Group catalog emptied. -/
theorem C2_groups_refresh_witness :
    (update_groups_list clientA tsB).2 = SllpErr.comm ∧
    (update_groups_list clientA tsB).1.groups = [] :=
  ((C2_groups_refresh_failure clientA tsB).2 rfl rfl (by decide) (by decide)).1
    ⟨0, by decide, trivial⟩

/-- C6: writing to a catalog-member Variable whose writable flag is false
fails with InvalidArgument after zero transport invocations — the rejection is
decided entirely client-side. -/
theorem C6_write_var_read_only_no_transport (client : SllpClient) (i : Nat)
    (value : Nat → Nat) (b : ExchBehavior)
    (hmem : vars_list_contains client.vars i = true)
    (hro : (var_at client.vars i).writable = false) :
    sllp_write_var client i value b =
      { client := client, err := SllpErr.param_invalid, calls := 0, out := () } := by
  unfold sllp_write_var
  rw [hmem]
  simp [hro]

/-- C6 witness: variable 1 of the concrete session is a read-only catalog
member, and writing to it returns InvalidArgument with zero transport
calls. -/
theorem C6_write_var_witness :
    vars_list_contains clientA.vars 1 = true ∧
    (var_at clientA.vars 1).writable = false ∧
    sllp_write_var clientA 1 (fun _ => 0) b_var_value_len2 =
      { client := clientA, err := SllpErr.param_invalid, calls := 0, out := () } :=
  ⟨by decide, by decide,
    C6_write_var_read_only_no_transport clientA 1 (fun _ => 0) b_var_value_len2
      (by decide) (by decide)⟩

/-- C9: the nine non-refreshing entity operations leave the session state —
all four catalogs, the stored server version and the initialized flag —
unchanged on every return path. -/
theorem C9_entity_ops_preserve_session (client : SllpClient) :
    (∀ i b, (sllp_read_var client i b).client = client) ∧
    (∀ i v b, (sllp_write_var client i v b).client = client) ∧
    (∀ w wv r b, (sllp_write_read_vars client w wv r b).client = client) ∧
    (∀ g b, (sllp_read_group client g b).client = client) ∧
    (∀ g v b, (sllp_write_group client g v b).client = client) ∧
    (∀ op i m b, (sllp_bin_op_var client op i m b).client = client) ∧
    (∀ op g m b, (sllp_bin_op_group client op g m b).client = client) ∧
    (∀ c o b, (sllp_request_curve_block client c o b).client = client) ∧
    (∀ c o d l b, (sllp_send_curve_block client c o d l b).client = client) := by
  refine ⟨fun i b => ?_, fun i v b => ?_, fun w wv r b => ?_, fun g b => ?_,
    fun g v b => ?_, fun op i m b => ?_, fun op g m b => ?_, fun c o b => ?_,
    fun c o d l b => ?_⟩
  · unfold sllp_read_var
    dsimp only
    repeat' split
    all_goals rfl
  · unfold sllp_write_var
    dsimp only
    repeat' split
    all_goals rfl
  · unfold sllp_write_read_vars
    dsimp only
    repeat' split
    all_goals rfl
  · unfold sllp_read_group
    dsimp only
    repeat' split
    all_goals rfl
  · unfold sllp_write_group
    dsimp only
    repeat' split
    all_goals rfl
  · unfold sllp_bin_op_var
    dsimp only
    repeat' split
    all_goals rfl
  · unfold sllp_bin_op_group
    dsimp only
    repeat' split
    all_goals rfl
  · unfold sllp_request_curve_block
    dsimp only
    repeat' split
    all_goals rfl
  · unfold sllp_send_curve_block
    dsimp only
    repeat' split
    all_goals rfl

/-- C1 counterexample: variable 0 of the concrete session has catalog size 4,
but a successful read whose response declares payload length 2 writes exactly
2 bytes into the caller's value buffer — the write length is the declared
payload length, not the Variable's catalog size. -/
theorem C1_counterexample :
    (sllp_read_var clientA 0 b_var_value_len2).err = SllpErr.success ∧
    (sllp_read_var clientA 0 b_var_value_len2).out = [9, 8] ∧
    (var_at clientA.vars 0).size = 4 ∧
    (sllp_read_var clientA 0 b_var_value_len2).out.length ≠
      (var_at clientA.vars 0).size := by
  decide

/-- C1 (amended): a successful `sllp_read_var` writes into the caller's value
buffer exactly the number of bytes declared by the response's payload-length
field (which equals var.size only when the response declares it so): the
bytes written are the declared-length prefix of the decoded payload. -/
theorem C1_read_var_copies_declared_length (client : SllpClient) (i : Nat)
    (b : ExchBehavior)
    (hsucc : (sllp_read_var client i b).err = SllpErr.success) :
    (sllp_read_var client i b).out =
      (List.range ((b.recv_data 1 % 256) * 256 + b.recv_data 2 % 256)).map
        fun k => b.recv_data (SLLP_HEADER_SIZE + k) % 256 := by
  unfold sllp_read_var at hsucc ⊢
  dsimp only at hsucc ⊢
  cases hm : vars_list_contains client.vars i with
  | false => rw [hm] at hsucc; simp at hsucc
  | true =>
      rw [hm] at hsucc
      simp only [Bool.not_true, if_false, ite_false, Bool.false_eq_true] at hsucc ⊢
      cases hr : (command b { code := CMD_VAR_READ, payload := [(var_at client.vars i).id % 256] }).resp with
      | none => rw [hr] at hsucc; simp at hsucc
      | some response =>
          rw [hr] at hsucc
          by_cases hcode : response.code = CMD_VAR_VALUE
          · simp only [hcode, ne_eq, not_true_eq_false, if_false, ite_false] at hsucc ⊢
            obtain ⟨h1, h2, h3⟩ := command_resp_elim hr
            rw [h2, h3]
          · simp [hcode] at hsucc

/-- C1 witness: reading variable 0 through `b_var_value_len2` succeeds and
the theorem's conclusion evaluates on it. -/
theorem C1_read_var_witness :
    (sllp_read_var clientA 0 b_var_value_len2).err = SllpErr.success ∧
    (sllp_read_var clientA 0 b_var_value_len2).out =
      (List.range ((b_var_value_len2.recv_data 1 % 256) * 256 +
          b_var_value_len2.recv_data 2 % 256)).map
        fun k => b_var_value_len2.recv_data (SLLP_HEADER_SIZE + k) % 256 :=
  ⟨by decide, C1_read_var_copies_declared_length clientA 0 b_var_value_len2 (by decide)⟩

/-- C10: a successful `sllp_write_read_vars` writes into the caller's
read-value buffer exactly read_var.size bytes — the read Variable's catalog
size — namely that many decoded payload bytes, independent of the payload
length declared by the response. -/
theorem C10_write_read_copies_read_var_size (client : SllpClient) (w : Nat)
    (wv : Nat → Nat) (r : Nat) (b : ExchBehavior)
    (hsucc : (sllp_write_read_vars client w wv r b).err = SllpErr.success) :
    (sllp_write_read_vars client w wv r b).out.length =
      (var_at client.vars r).size ∧
    (sllp_write_read_vars client w wv r b).out =
      (List.range (var_at client.vars r).size).map
        fun k => b.recv_data (SLLP_HEADER_SIZE + k) % 256 := by
  unfold sllp_write_read_vars at hsucc ⊢
  dsimp only at hsucc ⊢
  cases hm : vars_list_contains client.vars w with
  | false => rw [hm] at hsucc; simp at hsucc
  | true =>
      rw [hm] at hsucc
      simp only [Bool.not_true, if_false, ite_false, Bool.false_eq_true] at hsucc ⊢
      cases hw : (var_at client.vars w).writable with
      | false => rw [hw] at hsucc; simp at hsucc
      | true =>
          rw [hw] at hsucc
          simp only [Bool.not_true, if_false, ite_false, Bool.false_eq_true] at hsucc ⊢
          cases hm2 : vars_list_contains client.vars r with
          | false => rw [hm2] at hsucc; simp at hsucc
          | true =>
              rw [hm2] at hsucc
              simp only [Bool.not_true, if_false, ite_false, Bool.false_eq_true] at hsucc ⊢
              cases hr : (command b { code := CMD_VAR_WRITE_READ, payload := (var_at client.vars w).id % 256 :: (var_at client.vars r).id % 256 :: (List.range (var_at client.vars w).size).map fun k => wv k % 256 }).resp with
              | none => rw [hr] at hsucc; simp at hsucc
              | some response =>
                  rw [hr] at hsucc
                  by_cases hcode : response.code = CMD_VAR_VALUE
                  · simp only [hcode, ne_eq, not_true_eq_false, if_false,
                      ite_false] at hsucc ⊢
                    obtain ⟨h1, h2, h3⟩ := command_resp_elim hr
                    rw [h3]
                    simp
                  · simp [hcode] at hsucc

/-- C10 witness: writing variable 0 and reading variable 1 (catalog size 1)
through a response that declares payload length 3 copies exactly 1 byte. -/
theorem C10_write_read_witness :
    (sllp_write_read_vars clientA 0 (fun _ => 9) 1 b_var_value_len3).err =
      SllpErr.success ∧
    ((sllp_write_read_vars clientA 0 (fun _ => 9) 1 b_var_value_len3).out.length =
      (var_at clientA.vars 1).size ∧
    (sllp_write_read_vars clientA 0 (fun _ => 9) 1 b_var_value_len3).out =
      (List.range (var_at clientA.vars 1).size).map
        fun k => b_var_value_len3.recv_data (SLLP_HEADER_SIZE + k) % 256) :=
  ⟨by decide,
    C10_write_read_copies_read_var_size clientA 0 (fun _ => 9) 1 b_var_value_len3
      (by decide)⟩

/-- C8: the version query fails only when the exchange itself fails (the
result is success or CommunicationError with no decoded response); whenever
the exchange completes, the query succeeds, an operation-not-supported
response code yields exactly version 1.0.0, and any other response code
yields the first three payload bytes as major/minor/revision. -/
theorem C8_version_query (client : SllpClient) (b : ExchBehavior) :
    ((get_version client b).2 = SllpErr.success ∨
      ((get_version client b).2 = SllpErr.comm ∧
        (command b { code := CMD_QUERY_VERSION, payload := [] }).resp = none)) ∧
    (b.send_fails = false → b.recv_fails = false → 2 ≤ b.recv_size →
      (get_version client b).2 = SllpErr.success ∧
      (get_version client b).1.server_version =
        (if b.recv_data 0 % 256 = CMD_ERR_OP_NOT_SUPPORTED then
          { major := 1, minor := 0, revision := 0 }
        else
          { major := b.recv_data (SLLP_HEADER_SIZE + 0) % 256,
            minor := b.recv_data (SLLP_HEADER_SIZE + 1) % 256,
            revision := b.recv_data (SLLP_HEADER_SIZE + 2) % 256 })) := by
  constructor
  · unfold get_version
    dsimp only
    cases hr : (command b { code := CMD_QUERY_VERSION, payload := [] }).resp with
    | none => simp
    | some response => simp
  · intro h1 h2 h3
    unfold get_version command
    dsimp only
    rw [h1, h2]
    simp only [Bool.false_eq_true, if_false, ite_false]
    rw [if_neg (Nat.not_lt.mpr h3)]
    dsimp only
    constructor
    · rfl
    · rfl

/-- C8 witness: the version-fallback scenario — the transport answers the
version query with the operation-not-supported code and the stored version is
exactly 1.0.0. -/
theorem C8_version_witness :
    (get_version clientA b_op_not_supported).2 = SllpErr.success ∧
    (get_version clientA b_op_not_supported).1.server_version =
      { major := 1, minor := 0, revision := 0 } :=
  ⟨((C8_version_query clientA b_op_not_supported).2 rfl rfl (by decide)).1,
    by
      have h := ((C8_version_query clientA b_op_not_supported).2 rfl rfl (by decide)).2
      simpa using h⟩

/-- C5 counterexample: a function-error response whose first payload byte is
0 makes `sllp_func_execute` succeed with error byte 0 — the claim that a
function-error response always yields a non-zero error byte is false; the
error byte is simply copied from the response. -/
theorem C5_counterexample :
    b_func_error_zero.recv_data 0 % 256 = CMD_FUNC_ERROR ∧
    (sllp_func_execute clientA 0 55 (some fun _ => 1) (some [5, 5])
        b_func_error_zero).err = SllpErr.success ∧
    (sllp_func_execute clientA 0 55 (some fun _ => 1) (some [5, 5])
        b_func_error_zero).out.1 = 0 := by
  decide

/-- C5 (amended): with a catalog-member Function and the required buffers
supplied, whenever the exchange completes: a function-return response code
yields success, a zero error byte and the first output_size decoded payload
bytes written over the output buffer; a function-error response code yields
success, the first response payload byte as the error byte (zero only if the
server sends zero) and an untouched output buffer; any other response code
yields CommunicationError and touches neither buffer. -/
theorem C5_func_execute_cases (client : SllpClient) (fi : Nat) (error0 : Nat)
    (input : Option (Nat → Nat)) (output0 : Option (List Nat))
    (b : ExchBehavior)
    (hmem : funcs_list_contains client.funcs fi = true)
    (hin : ((func_at client.funcs fi).input_size != 0 && input.isNone) = false)
    (hout : ((func_at client.funcs fi).output_size != 0 && output0.isNone) = false)
    (h1 : b.send_fails = false) (h2 : b.recv_fails = false)
    (h3 : 2 ≤ b.recv_size) :
    (b.recv_data 0 % 256 = CMD_FUNC_RETURN →
      (sllp_func_execute client fi error0 input output0 b).err = SllpErr.success ∧
      (sllp_func_execute client fi error0 input output0 b).out.1 = 0 ∧
      (sllp_func_execute client fi error0 input output0 b).out.2 =
        output0.map fun buf =>
          (List.range (func_at client.funcs fi).output_size).map
            (fun k => b.recv_data (SLLP_HEADER_SIZE + k) % 256) ++
          buf.drop (func_at client.funcs fi).output_size) ∧
    (b.recv_data 0 % 256 = CMD_FUNC_ERROR →
      (sllp_func_execute client fi error0 input output0 b).err = SllpErr.success ∧
      (sllp_func_execute client fi error0 input output0 b).out.1 =
        b.recv_data (SLLP_HEADER_SIZE + 0) % 256 ∧
      (sllp_func_execute client fi error0 input output0 b).out.2 = output0) ∧
    (b.recv_data 0 % 256 ≠ CMD_FUNC_RETURN →
      b.recv_data 0 % 256 ≠ CMD_FUNC_ERROR →
      (sllp_func_execute client fi error0 input output0 b).err = SllpErr.comm ∧
      (sllp_func_execute client fi error0 input output0 b).out =
        (error0, output0)) := by
  unfold sllp_func_execute command
  dsimp only
  rw [hmem, hin, hout, h1, h2]
  simp only [Bool.not_true, if_false, ite_false, Bool.false_eq_true,
    if_neg (Nat.not_lt.mpr h3)]
  refine ⟨fun hret => ?_, fun herr => ?_, fun hret herr => ?_⟩
  · rw [if_pos hret]
    exact ⟨rfl, rfl, rfl⟩
  · rw [if_neg ?_, if_pos herr]
    · exact ⟨rfl, rfl, rfl⟩
    · rw [herr]; decide
  · rw [if_neg hret, if_neg herr]
    exact ⟨rfl, rfl⟩

/-- C5 witness: a function-error response with error payload byte 7 yields
success, error byte 7, and an unmodified output buffer. -/
theorem C5_func_execute_witness :
    funcs_list_contains clientA.funcs 0 = true ∧
    ((sllp_func_execute clientA 0 55 (some fun _ => 1) (some [5, 5])
        b_func_error_seven).err = SllpErr.success ∧
      (sllp_func_execute clientA 0 55 (some fun _ => 1) (some [5, 5])
        b_func_error_seven).out.1 =
          b_func_error_seven.recv_data (SLLP_HEADER_SIZE + 0) % 256 ∧
      (sllp_func_execute clientA 0 55 (some fun _ => 1) (some [5, 5])
        b_func_error_seven).out.2 = some [5, 5]) :=
  ⟨by decide,
    (C5_func_execute_cases clientA 0 55 (some fun _ => 1) (some [5, 5])
        b_func_error_seven (by decide) (by decide) (by decide) rfl rfl
        (by decide)).2.1 (by decide)⟩

/-- Helper: the group size accumulated by the member loop equals the sum of
the sizes of the member references it collects. -/
theorem group_member_fill_size (vars : List SllpVarInfo) (payload : Nat → Nat) :
    ∀ n, (group_member_fill vars payload n).2 =
      ((group_member_fill vars payload n).1.map SllpVarInfo.size).sum := by
  intro n
  induction n with
  | zero => rfl
  | succ n ih =>
      simp only [group_member_fill, List.map_append, List.sum_append,
        List.map_cons, List.map_nil, List.sum_cons, List.sum_nil,
        Nat.add_zero, ih]

/-- Helper: every group produced by the per-group refresh loop has its size
field equal to the sum of its member reference sizes. -/
theorem groups_fill_size_sum (vars : List SllpVarInfo) (ts : Nat → ExchBehavior)
    (payload : Nat → Nat) :
    ∀ fuel i gs, groups_fill vars ts payload i fuel = some gs →
      ∀ g ∈ gs, g.size = (g.vars.map SllpVarInfo.size).sum := by
  intro fuel
  induction fuel with
  | zero =>
      intro i gs h g hg
      simp only [groups_fill, Option.some.injEq] at h
      subst h
      simp at hg
  | succ fuel ih =>
      intro i gs h g hg
      rw [groups_fill] at h
      cases hr : (command (ts (i + 1)) { code := CMD_GROUP_QUERY, payload := [i % 256] }).resp with
      | none => rw [hr] at h; simp at h
      | some grp_response =>
          rw [hr] at h
          by_cases hcode : grp_response.code = CMD_GROUP
          · simp only [hcode, ne_eq, not_true_eq_false, if_false, ite_false] at h
            cases hrest : groups_fill vars ts payload (i + 1) fuel with
            | none => rw [hrest] at h; simp at h
            | some rest =>
                rw [hrest] at h
                simp only [Option.some.injEq] at h
                subst h
                rcases List.mem_cons.mp hg with hg1 | hg2
                · subst hg1
                  exact group_member_fill_size vars grp_response.payload
                    grp_response.payload_size
                · exact ih (i + 1) rest hrest g hg2
          · simp [hcode] at h

/-- C7: after a successful Groups-catalog refresh, every Group's size field
equals the sum of the size fields of its member Variable references, resolved
against the Variable catalog current at that refresh. -/
theorem C7_group_size_is_member_sum (client : SllpClient)
    (ts : Nat → ExchBehavior)
    (hsucc : (update_groups_list client ts).2 = SllpErr.success) :
    ∀ g ∈ (update_groups_list client ts).1.groups,
      g.size = (g.vars.map SllpVarInfo.size).sum := by
  unfold update_groups_list at hsucc ⊢
  dsimp only at hsucc ⊢
  cases hr : (command (ts 0) { code := CMD_GROUP_QUERY_LIST, payload := [] }).resp with
  | none => rw [hr] at hsucc; simp at hsucc
  | some response =>
      rw [hr] at hsucc
      by_cases hc : response.code = CMD_GROUP_LIST
      · simp only [hc, ne_eq, not_true_eq_false, if_false, ite_false] at hsucc ⊢
        cases hg : groups_fill client.vars ts response.payload 0 response.payload_size with
        | none => rw [hg] at hsucc; simp at hsucc
        | some gs =>
            rw [hg] at hsucc
            intro g hgmem
            simp only at hgmem
            exact groups_fill_size_sum client.vars ts response.payload
              response.payload_size 0 gs hg g hgmem
      · simp [hc] at hsucc

/-- C7 witness: the concrete refresh through `tsA` succeeds and its single
group (size 5) satisfies the member-sum property. -/
theorem C7_group_size_witness :
    (update_groups_list clientA tsA).2 = SllpErr.success ∧
    (group_at (update_groups_list clientA tsA).1.groups 0).size =
      ((group_at (update_groups_list clientA tsA).1.groups 0).vars.map
        SllpVarInfo.size).sum :=
  ⟨by decide,
    C7_group_size_is_member_sum clientA tsA (by decide)
      (group_at (update_groups_list clientA tsA).1.groups 0) (by decide)⟩

/-- Helper: with the payload below the maximum payload size, the encoded
message is the code byte, the two big-endian length bytes, and the payload
bytes. -/
theorem encode_message_eq (code : Nat) (payload : List Nat)
    (hlen : payload.length ≤ SLLP_MAX_PAYLOAD) :
    encode_message { code := code, payload := payload } =
      (code % 256) :: (payload.length / 256) :: (payload.length % 256) ::
        payload.map (fun x => x % 256) := by
  have h2 : payload.length ≤ 65532 := hlen
  have hl : payload.length < 65536 := by omega
  unfold encode_message SllpRequest.payload_size
  dsimp only
  rw [Nat.mod_eq_of_lt hl, List.take_length]

/-- Helper: the encoded message is header plus payload long. -/
theorem encode_message_length (code : Nat) (payload : List Nat)
    (hlen : payload.length ≤ SLLP_MAX_PAYLOAD) :
    (encode_message { code := code, payload := payload }).length =
      payload.length + 3 := by
  rw [encode_message_eq code payload hlen]
  simp only [List.length_cons, List.length_map]

/-- C4 counterexample: [5, 0, 1, 7] is the 4-byte encoding of code 5 with
payload [7]; two receive arrays that agree on all 4 encoded bytes (differing
only past the end of the encoded buffer) decode to different deposited
payload byte lists, so the decode copy reads past the end of the encoded
buffer — the no-overread part of the claim is false. -/
theorem C4_counterexample :
    encode_message { code := 5, payload := [7] } = [5, 0, 1, 7] ∧
    ([5, 0, 1, 7] : List Nat).length = 4 ∧
    ((fun i => [5, 0, 1, 7].getD i 0) 0 =
        (fun i => if i < 4 then [5, 0, 1, 7].getD i 0 else 9) 0 ∧
      (fun i => [5, 0, 1, 7].getD i 0) 1 =
        (fun i => if i < 4 then [5, 0, 1, 7].getD i 0 else 9) 1 ∧
      (fun i => [5, 0, 1, 7].getD i 0) 2 =
        (fun i => if i < 4 then [5, 0, 1, 7].getD i 0 else 9) 2 ∧
      (fun i => [5, 0, 1, 7].getD i 0) 3 =
        (fun i => if i < 4 then [5, 0, 1, 7].getD i 0 else 9) 3) ∧
    decoded_payload_bytes 4 (fun i => [5, 0, 1, 7].getD i 0) ≠
      decoded_payload_bytes 4 (fun i => if i < 4 then [5, 0, 1, 7].getD i 0 else 9) := by
  decide

/-- C4 (amended): encoding a message with a valid code and payload at most
the maximum payload size and then decoding the resulting buffer recovers the
identical command code, the identical payload length, and identical payload
bytes up to the declared payload length; the decode copy, however, transfers
received-length bytes (header size more than the payload length), so the
decoded payload bytes beyond the payload length come from memory past the end
of the encoded buffer. -/
theorem C4_round_trip (code : Nat) (payload : List Nat) (data : Nat → Nat)
    (hcode : code < 256)
    (hlen : payload.length ≤ SLLP_MAX_PAYLOAD)
    (hbytes : ∀ x ∈ payload, x < 256)
    (hdata : ∀ i, i < (encode_message { code := code, payload := payload }).length →
      data i = (encode_message { code := code, payload := payload }).getD i 0) :
    (command { send_fails := false, recv_fails := false, recv_size := (encode_message { code := code, payload := payload }).length, recv_data := data } { code := code, payload := payload }).resp.map
      (fun response => (response.code, response.payload_size,
        (List.range payload.length).map response.payload)) =
      some (code, payload.length, payload) := by
  have h2 : payload.length ≤ 65532 := hlen
  have henc := encode_message_eq code payload hlen
  have hlen_enc := encode_message_length code payload hlen
  have h0 : data 0 = code % 256 := by
    have h := hdata 0 (by omega)
    rw [henc] at h
    simpa using h
  have h1b : data 1 = payload.length / 256 := by
    have h := hdata 1 (by omega)
    rw [henc] at h
    simpa using h
  have h2b : data 2 = payload.length % 256 := by
    have h := hdata 2 (by omega)
    rw [henc] at h
    simpa using h
  have hpay : ∀ k, k < payload.length →
      data (SLLP_HEADER_SIZE + k) % 256 = payload.getD k 0 := by
    intro k hk
    have harith : SLLP_HEADER_SIZE + k = k + 1 + 1 + 1 := by
      unfold SLLP_HEADER_SIZE
      omega
    have h := hdata (SLLP_HEADER_SIZE + k) (by omega)
    rw [henc, harith] at h
    simp only [List.getD_cons_succ] at h
    rw [List.getD_eq_getElem _ _ (by simpa using hk), List.getElem_map] at h
    rw [harith, h, List.getD_eq_getElem _ _ hk]
    have hb : payload.get ⟨k, hk⟩ < 256 := hbytes _ (List.get_mem payload k hk)
    simp only [List.get_eq_getElem] at hb
    omega
  rw [command_resp_some _ _ rfl rfl (by dsimp only; omega)]
  dsimp only [Option.map_some]
  refine congrArg some ?_
  refine Prod.ext ?_ (Prod.ext ?_ ?_)
  · dsimp only
    rw [h0]
    omega
  · dsimp only
    rw [h1b, h2b]
    omega
  · dsimp only
    apply List.ext_getElem
    · simp
    · intro k hk1 hk2
      simp only [List.getElem_map, List.getElem_range]
      have hk : k < payload.length := by simpa using hk1
      have h := hpay k hk
      rw [List.getD_eq_getElem _ _ hk] at h
      exact h

/-- C4 witness: the round trip evaluated on the encoding of code 5 with
payload [7]. -/
theorem C4_round_trip_witness :
    (5 : Nat) < 256 ∧
    ([7] : List Nat).length ≤ SLLP_MAX_PAYLOAD ∧
    (command { send_fails := false, recv_fails := false, recv_size := (encode_message { code := 5, payload := [7] }).length, recv_data := fun i => (encode_message { code := 5, payload := [7] }).getD i 0 } { code := 5, payload := [7] }).resp.map
        (fun response => (response.code, response.payload_size,
          (List.range ([7] : List Nat).length).map response.payload)) =
      some (5, ([7] : List Nat).length, [7]) :=
  ⟨by decide, by decide,
    C4_round_trip 5 [7]
      (fun i => (encode_message { code := 5, payload := [7] }).getD i 0)
      (by decide) (by decide) (by decide) (fun i hi => rfl)⟩

end Sllp
